import Mathlib

/-!
Shallow embedding of the scene-generation pipeline of `src/index.tsx`
(basic-3d-models-generator): the Scene Description data model, the scene
replacement `buildSceneFromData`, the generate-click orchestration
`handleGenerateClick`, and the image-upload handler `handleImageUpload`.

JS numbers are modelled as rationals, JS strings as `String`, and the
mutable DOM/three.js state as explicit records threaded through the
functions.  A JS function that throws partway is modelled as `Except`,
with the error value carrying the state as mutated so far.
-/

/-- A 3-component numeric vector, the `{x, y, z}` records used for
`position` and `scale` in the wire schema. -/
structure Vec3 where
  x : ℚ
  y : ℚ
  z : ℚ
deriving DecidableEq

/-- One Object Descriptor of the Scene Description wire schema:
`shape` (free string on the wire; the recognized values are the enum
box, sphere, cone, cylinder, torus), `color`, `position`, `scale`. -/
structure ObjDesc where
  shape : String
  color : String
  position : Vec3
  scale : Vec3
deriving DecidableEq

/-- A parsed JSON payload as `buildSceneFromData` receives it.  Either
field may be absent in a malformed payload, hence `Option`. -/
structure SceneData where
  backgroundColor : Option String
  objects : Option (List ObjDesc)
deriving DecidableEq

/-- The geometry constructors invoked in `buildSceneFromData`, with the
numeric parameters and the fixed segment counts from the source:
`BoxGeometry(sx, sy, sz)`, `SphereGeometry(r, 32, 16)`,
`ConeGeometry(r, h, 32)`, `CylinderGeometry(rTop, rBot, h, 32)`,
`TorusGeometry(r, tube, 16, 100)`. -/
inductive Geometry where
  | boxGeometry (width height depth : ℚ)
  | sphereGeometry (radius : ℚ) (widthSegments heightSegments : Nat)
  | coneGeometry (radius height : ℚ) (radialSegments : Nat)
  | cylinderGeometry (radiusTop radiusBottom height : ℚ) (radialSegments : Nat)
  | torusGeometry (radius tube : ℚ) (radialSegments tubularSegments : Nat)
deriving DecidableEq

/-- A mesh as produced in `buildSceneFromData`: geometry, the
`MeshStandardMaterial` fields (`color`, `roughness`, `metalness`), the
position set by `mesh.position.set(...)`, and the rotation, which the
source never touches and therefore stays at its (0, 0, 0) default. -/
structure Mesh where
  geometry : Geometry
  color : String
  roughness : ℚ
  metalness : ℚ
  position : Vec3
  rotation : Vec3
deriving DecidableEq

/-- The Scene Graph state the claims observe: `scene.background` (as the
24-bit color value THREE.Color resolves to) and the children of
`generatedContentGroup`, in insertion order. -/
structure SceneGraph where
  background : Nat
  content : List Mesh
deriving DecidableEq

/-- Value of one hexadecimal digit character, `none` for other characters. -/
def hexDigitVal (c : Char) : Option Nat :=
  if ('0' ≤ c ∧ c ≤ '9') then some (c.toNat - Char.toNat '0')
  else if ('a' ≤ c ∧ c ≤ 'f') then some (c.toNat - Char.toNat 'a' + 10)
  else if ('A' ≤ c ∧ c ≤ 'F') then some (c.toNat - Char.toNat 'A' + 10)
  else none

/-- Accumulating value of a list of hexadecimal digit characters. -/
def hexValue : List Char → Nat → Option Nat
  | [], acc => some acc
  | c :: cs, acc =>
    match hexDigitVal c with
    | none => none
    | some d => hexValue cs (acc * 16 + d)

/-- Parse a `#rrggbb` style string to its color value.  This is the hex
form the response schema requests for `backgroundColor` and `color`
(THREE.Color additionally accepts other CSS styles such as `rgb(...)`
and color keywords; those forms never occur in this development, and
the strings used as invalid inputs below are invalid in full
THREE.Color as well). -/
def parseHexColor (s : String) : Option Nat :=
  match s.data with
  | '#' :: ds => if ds.length = 6 then hexValue ds 0 else none
  | _ => none

/-- Behaviour of `new THREE.Color(style)` for a string argument: a
parseable style yields its value; an unparseable style leaves the color
at its constructor default, white `0xffffff` (THREE.Color only warns
and keeps the default in that case). -/
def threeColorOfStyle (s : String) : Nat :=
  (parseHexColor s).getD 0xffffff

/-- The background computation of `buildSceneFromData`, line 405:
`new THREE.Color(sceneData.backgroundColor || 0x111111)`.  The JS `||`
takes the fallback exactly when `backgroundColor` is falsy, i.e. absent
or the empty string; any non-empty string is handed to THREE.Color. -/
def sceneBackgroundColor (bc : Option String) : Nat :=
  match bc with
  | none => 0x111111
  | some s => if s = "" then 0x111111 else threeColorOfStyle s

/-- The `switch (obj.shape)` of `buildSceneFromData`, lines 411-429:
geometry per shape, `none` for the `default:` skip branch. -/
def shapeGeometry (shape : String) (s : Vec3) : Option Geometry :=
  match shape with
  | "box" => some (Geometry.boxGeometry s.x s.y s.z)
  | "sphere" => some (Geometry.sphereGeometry (max (max s.x s.y) s.z / 2) 32 16)
  | "cone" => some (Geometry.coneGeometry (s.x / 2) s.y 32)
  | "cylinder" => some (Geometry.cylinderGeometry (s.x / 2) (s.z / 2) s.y 32)
  | "torus" => some (Geometry.torusGeometry (s.x / 2) (s.y / 4) 16 100)
  | _ => none

/-- The body of the `forEach` in `buildSceneFromData`, lines 408-440:
build the geometry for the shape (or skip), then the material with the
fixed constants `roughness: 0.5, metalness: 0.1`, and position the mesh
at `obj.position`.  No rotation is applied anywhere. -/
def buildMesh (obj : ObjDesc) : Option Mesh :=
  match shapeGeometry obj.shape obj.scale with
  | none => none
  | some geometry =>
    some { geometry := geometry, color := obj.color, roughness := 0.5, metalness := 0.1,
           position := obj.position, rotation := ⟨0, 0, 0⟩ }

/-- Result of a run of `buildSceneFromData`: the Scene Graph, and the
export control availability (`downloadToggleBtn.disabled === false`). -/
structure BuildResult where
  graph : SceneGraph
  exportEnabled : Bool
deriving DecidableEq

/-- `buildSceneFromData` (lines 398-445), in source order: first the
`while` loop removes every child of `generatedContentGroup`; then the
background is assigned; then `sceneData.objects.forEach(...)` adds one
mesh per recognized descriptor; finally the export toggle is enabled
when `sceneData.objects.length > 0`.  When the payload has no `objects`
field, the `forEach` call throws a TypeError: the error value carries
the state at that point, with the content already cleared and the
background already reassigned. -/
def buildSceneFromData (graph : SceneGraph) (exportEnabled : Bool) (d : SceneData) :
    Except BuildResult BuildResult :=
  let cleared : SceneGraph :=
    { background := sceneBackgroundColor d.backgroundColor, content := [] }
  match d.objects with
  | none => Except.error { graph := cleared, exportEnabled := exportEnabled }
  | some objs =>
    Except.ok { graph := { cleared with content := objs.filterMap buildMesh },
                exportEnabled := if objs.length > 0 then true else exportEnabled }

/-- The image payload stored in the module-level `uploadedImage`. -/
structure UploadedImage where
  mimeType : String
  data : String
deriving DecidableEq

/-- The application state the claims observe: whether `ai` is non-null,
the prompt text, the stored uploaded image, the Scene Graph, the export
toggle, the error banner (some message when visible), the loading
spinner, and whether the API-key modal is shown. -/
structure AppState where
  aiInitialized : Bool
  promptText : String
  uploadedImage : Option UploadedImage
  sceneGraph : SceneGraph
  exportEnabled : Bool
  errorMsg : Option String
  loading : Bool
  apiKeyModalShown : Bool
deriving DecidableEq

/-- Outcome of the awaited external call plus `JSON.parse` on its text:
the call rejects (network, auth, service failure); or the response text
is not valid JSON; or it parses to a `SceneData` payload. -/
inductive GenOutcome where
  | serviceError
  | parseError
  | parsed (d : SceneData)
deriving DecidableEq

/-- Result of a `handleGenerateClick` run: the final state, and whether
the external service was actually contacted. -/
structure GenResult where
  state : AppState
  serviceCalled : Bool
deriving DecidableEq

/-- Error message of the missing-key guard, line 222. -/
def apiKeyMissingMsg : String :=
  "Please set your Gemini API key in the settings before generating."

/-- Error message of the empty-input guard, line 229. -/
def emptyInputMsg : String :=
  "Please enter a prompt or upload an image to describe the scene."

/-- Error message of the catch block, line 270. -/
def generateFailedMsg : String :=
  "Failed to generate the scene. The AI may be unavailable, your API key may be invalid, or the request could not be processed. Please check your key and try again."

/-- Error message of the image-type guard, line 285. -/
def invalidImageMsg : String :=
  "Please upload a valid image file (JPG, PNG, WebP)."

/-- `handleGenerateClick` (lines 220-274).  Guards first: no `ai` shows
the key error and the modal; empty prompt with no image shows the input
error; both return before the external call.  Otherwise the loading
state is entered, the error banner hidden, the export toggle disabled,
and the external call made; a rejected call or a `JSON.parse` throw
lands in the catch block; a parsed payload is passed to
`buildSceneFromData`, whose own throw also lands in the catch block.
The `finally` clears the loading state on every path that made the
call. -/
def handleGenerateClick (st : AppState) (outcome : GenOutcome) : GenResult :=
  if st.aiInitialized = false then
    { state := { st with errorMsg := some apiKeyMissingMsg, apiKeyModalShown := true },
      serviceCalled := false }
  else if st.promptText = "" ∧ st.uploadedImage = none then
    { state := { st with errorMsg := some emptyInputMsg }, serviceCalled := false }
  else
    let st1 : AppState := { st with loading := true, errorMsg := none, exportEnabled := false }
    let st2 : AppState :=
      match outcome with
      | GenOutcome.serviceError => { st1 with errorMsg := some generateFailedMsg }
      | GenOutcome.parseError => { st1 with errorMsg := some generateFailedMsg }
      | GenOutcome.parsed d =>
        match buildSceneFromData st1.sceneGraph st1.exportEnabled d with
        | Except.ok r =>
          { st1 with sceneGraph := r.graph, exportEnabled := r.exportEnabled }
        | Except.error r =>
          { st1 with sceneGraph := r.graph, exportEnabled := r.exportEnabled,
                     errorMsg := some generateFailedMsg }
    { state := { st2 with loading := false }, serviceCalled := true }

/-- A file as offered to `handleImageUpload`: its MIME `type`, and the
base64 text the FileReader produces for its bytes. -/
structure JsFile where
  type : String
  base64 : String
deriving DecidableEq

/-- The accepted MIME types, line 284. -/
def acceptedImageTypes : List String := ["image/jpeg", "image/png", "image/webp"]

/-- `FileReader.readAsDataURL` output for a file: a data URL carrying
the MIME type and the base64 payload. -/
def dataUrlOf (f : JsFile) : String :=
  "data:" ++ f.type ++ ";base64," ++ f.base64

/-- JS `String.prototype.split(",")` on a list of characters: groups of
characters between commas (always at least one group). -/
def splitCommaChars : List Char → List (List Char)
  | [] => [[]]
  | c :: rest =>
    match splitCommaChars rest with
    | [] => [[]]
    | g :: gs => if c = ',' then [] :: g :: gs else (c :: g) :: gs

/-- JS `result.split(",")` on a string. -/
def jsSplitComma (s : String) : List String :=
  (splitCommaChars s.data).map fun cs => String.mk cs

/-- `handleImageUpload` (lines 279-304).  No file: nothing happens.  A
file whose MIME type is not accepted: the error banner is shown and the
stored image is untouched.  Otherwise the reader result (a data URL) is
split at the comma, and the part after the comma is stored as the
base64 payload together with the MIME type. -/
def handleImageUpload (st : AppState) (file : Option JsFile) : AppState :=
  match file with
  | none => st
  | some f =>
    if (acceptedImageTypes.contains f.type) = false then
      { st with errorMsg := some invalidImageMsg }
    else
      let result := dataUrlOf f
      let base64Data := (jsSplitComma result).getD 1 ""
      { st with uploadedImage := some { mimeType := f.type, data := base64Data } }

/-- The recognized members of the shape enum, as a Boolean test. -/
def recognizedShape (sh : String) : Bool :=
  (sh == "box") || (sh == "sphere") || (sh == "cone") || (sh == "cylinder") || (sh == "torus")

/-- The outcome condition under which the source enables the export
toggle: the payload parsed and its `objects` list is non-empty. -/
def successfulNonEmptyOutcome : GenOutcome → Bool
  | GenOutcome.parsed d =>
    match d.objects with
    | some objs => decide (objs ≠ [])
    | none => false
  | _ => false

/-- C9 observable, as a Boolean: every mesh of the content has the
default (0,0,0) rotation, the fixed material constants, and position
and color taken verbatim from some descriptor of the list. -/
def translationMaterialInvariant (objs : List ObjDesc) (content : List Mesh) : Bool :=
  content.all fun m =>
    decide (m.rotation = Vec3.mk 0 0 0) &&
    decide (m.roughness = 0.5) &&
    decide (m.metalness = 0.1) &&
    (objs.any fun o => decide (m.position = o.position) && decide (m.color = o.color))

/-- An object with an unrecognized shape value. -/
def pyramidObj : ObjDesc :=
  { shape := "pyramid", color := "#ff0000", position := ⟨0, 0, 0⟩, scale := ⟨1, 1, 1⟩ }

/-- A payload whose single object has an unrecognized shape. -/
def pyramidOnlyData : SceneData :=
  { backgroundColor := some "#101010", objects := some [pyramidObj] }

/-- A payload missing the `objects` field. -/
def missingObjectsData : SceneData :=
  { backgroundColor := some "#000000", objects := none }

/-- A payload whose background color is a non-empty unparseable style. -/
def badColorData : SceneData :=
  { backgroundColor := some "not-a-color", objects := some [] }

/-- Two recognized descriptors around one unrecognized one. -/
def mixedObjs : List ObjDesc :=
  [{ shape := "box", color := "#ff0000", position := ⟨0, 0, 0⟩, scale := ⟨2, 3, 4⟩ },
   pyramidObj,
   { shape := "sphere", color := "#0000ff", position := ⟨2, 2, 2⟩, scale := ⟨2, 4, 6⟩ }]

/-- A well-formed payload with the mixed object list. -/
def mixedData : SceneData :=
  { backgroundColor := some "#123456", objects := some mixedObjs }

/-- The build result of `mixedData`, written out explicitly. -/
def mixedResult : BuildResult :=
  { graph :=
      { background := 0x123456,
        content :=
          [{ geometry := Geometry.boxGeometry 2 3 4, color := "#ff0000", roughness := 0.5,
             metalness := 0.1, position := ⟨0, 0, 0⟩, rotation := ⟨0, 0, 0⟩ },
           { geometry := Geometry.sphereGeometry 3 32 16, color := "#0000ff", roughness := 0.5,
             metalness := 0.1, position := ⟨2, 2, 2⟩, rotation := ⟨0, 0, 0⟩ }] },
    exportEnabled := true }

/-- A mesh surviving from an earlier successful generation. -/
def demoMesh : Mesh :=
  { geometry := Geometry.boxGeometry 1 2 3, color := "#ff0000", roughness := 0.5,
    metalness := 0.1, position := ⟨0, 0, 0⟩, rotation := ⟨0, 0, 0⟩ }

/-- A state right after a successful generation: one mesh live, export
enabled, key configured, a non-empty prompt. -/
def demoState : AppState :=
  { aiInitialized := true, promptText := "a cube", uploadedImage := none,
    sceneGraph := { background := 0x222222, content := [demoMesh] },
    exportEnabled := true, errorMsg := none, loading := false, apiKeyModalShown := false }

/-- A state whose prompt is empty and which has no uploaded image. -/
def emptyInputState : AppState :=
  { aiInitialized := true, promptText := "", uploadedImage := none,
    sceneGraph := { background := 0x111111, content := [] },
    exportEnabled := false, errorMsg := none, loading := false, apiKeyModalShown := false }

theorem shapeGeometry_isSome (sh : String) (s : Vec3) :
    (shapeGeometry sh s).isSome = recognizedShape sh := by
  by_cases h1 : sh = "box"
  · subst h1; rfl
  by_cases h2 : sh = "sphere"
  · subst h2; rfl
  by_cases h3 : sh = "cone"
  · subst h3; rfl
  by_cases h4 : sh = "cylinder"
  · subst h4; rfl
  by_cases h5 : sh = "torus"
  · subst h5; rfl
  simp [shapeGeometry, recognizedShape, h1, h2, h3, h4, h5]

theorem buildMesh_isSome (o : ObjDesc) : (buildMesh o).isSome = recognizedShape o.shape := by
  rw [← shapeGeometry_isSome o.shape o.scale]
  unfold buildMesh
  cases shapeGeometry o.shape o.scale <;> rfl

theorem length_filterMap_buildMesh (objs : List ObjDesc) :
    (objs.filterMap buildMesh).length =
      (objs.filter fun o => recognizedShape o.shape).length := by
  induction objs with
  | nil => rfl
  | cons o rest ih =>
    rw [List.filterMap_cons, List.filter_cons]
    cases h : buildMesh o with
    | none =>
      have hr : recognizedShape o.shape = false := by rw [← buildMesh_isSome, h]; rfl
      simp [hr, ih]
    | some m =>
      have hr : recognizedShape o.shape = true := by rw [← buildMesh_isSome, h]; rfl
      simp [hr, ih]

/-- C2: for every valid Scene Description whose objects list has N
descriptors with a recognized shape and K with any other shape value,
`buildSceneFromData` leaves exactly N meshes in the generated content
group — the K unrecognized descriptors are skipped without aborting the
batch — regardless of the prior content of the group. -/
theorem C2_replace_count (g : SceneGraph) (e : Bool) (d : SceneData) (objs : List ObjDesc)
    (h : d.objects = some objs) :
    ((buildSceneFromData g e d).toOption.map (fun r => r.graph.content.length)) =
      some (objs.filter fun o => recognizedShape o.shape).length := by
  simp [buildSceneFromData, h, Except.toOption, length_filterMap_buildMesh]

/-- C2 witness: a prior graph with one mesh, a payload with two
recognized descriptors and one unrecognized one: two meshes result. -/
theorem C2_witness :
    ((buildSceneFromData ⟨0x111111, [demoMesh]⟩ true mixedData).toOption.map
      (fun r => r.graph.content.length)) = some 2 := by
  rw [C2_replace_count ⟨0x111111, [demoMesh]⟩ true mixedData mixedObjs rfl]
  decide

/-- C3: the Geometry Builder maps shapes to geometry parameters as: box
gets dimensions exactly (x, y, z); sphere gets radius max(x,y,z)/2;
cone gets base radius x/2 and height y, z ignored; cylinder gets top
radius x/2, bottom radius z/2 and height y; torus gets outer radius x/2
and tube radius y/4, z ignored.  In particular box with scale (2,3,4)
yields dimensions 2x3x4, sphere with scale (2,4,6) yields radius 3, and
cylinder with scale (2,5,8) yields top radius 1, bottom radius 4,
height 5. -/
theorem C3_shape_parameter_mapping :
    (∀ c p s, buildMesh { shape := "box", color := c, position := p, scale := s } =
      some { geometry := Geometry.boxGeometry s.x s.y s.z, color := c, roughness := 0.5,
             metalness := 0.1, position := p, rotation := ⟨0, 0, 0⟩ }) ∧
    (∀ c p s, buildMesh { shape := "sphere", color := c, position := p, scale := s } =
      some { geometry := Geometry.sphereGeometry (max (max s.x s.y) s.z / 2) 32 16, color := c,
             roughness := 0.5, metalness := 0.1, position := p, rotation := ⟨0, 0, 0⟩ }) ∧
    (∀ c p s, buildMesh { shape := "cone", color := c, position := p, scale := s } =
      some { geometry := Geometry.coneGeometry (s.x / 2) s.y 32, color := c, roughness := 0.5,
             metalness := 0.1, position := p, rotation := ⟨0, 0, 0⟩ }) ∧
    (∀ c p s, buildMesh { shape := "cylinder", color := c, position := p, scale := s } =
      some { geometry := Geometry.cylinderGeometry (s.x / 2) (s.z / 2) s.y 32, color := c,
             roughness := 0.5, metalness := 0.1, position := p, rotation := ⟨0, 0, 0⟩ }) ∧
    (∀ c p s, buildMesh { shape := "torus", color := c, position := p, scale := s } =
      some { geometry := Geometry.torusGeometry (s.x / 2) (s.y / 4) 16 100, color := c,
             roughness := 0.5, metalness := 0.1, position := p, rotation := ⟨0, 0, 0⟩ }) ∧
    ((buildMesh
        { shape := "box", color := "#ffffff", position := ⟨0, 0, 0⟩, scale := ⟨2, 3, 4⟩ }).map
      (fun m => m.geometry) = some (Geometry.boxGeometry 2 3 4)) ∧
    ((buildMesh
        { shape := "sphere", color := "#ffffff", position := ⟨0, 0, 0⟩, scale := ⟨2, 4, 6⟩ }).map
      (fun m => m.geometry) = some (Geometry.sphereGeometry 3 32 16)) ∧
    ((buildMesh
        { shape := "cylinder", color := "#ffffff", position := ⟨0, 0, 0⟩,
          scale := ⟨2, 5, 8⟩ }).map
      (fun m => m.geometry) = some (Geometry.cylinderGeometry 1 4 5 32)) := by
  refine ⟨fun c p s => rfl, fun c p s => rfl, fun c p s => rfl, fun c p s => rfl,
    fun c p s => rfl, ?_, ?_, ?_⟩ <;>
    simp [buildMesh, shapeGeometry] <;> norm_num

/-- C4 counterexample: a description whose single object has the
unrecognized shape `pyramid` adds zero meshes, yet the export control
ends up enabled, because the source tests `objects.length > 0` and not
the number of meshes actually added. -/
theorem C4_counterexample :
    ((buildSceneFromData ⟨0x111111, []⟩ false pyramidOnlyData).toOption.map
      (fun r => (r.graph.content.length, r.exportEnabled))) = some (0, true) := by
  simp [buildSceneFromData, pyramidOnlyData, pyramidObj, buildMesh, shapeGeometry,
    Except.toOption]

/-- C4 (amended): after an accepted generation, the export control is
enabled exactly when the objects list of the description is non-empty,
whether or not any of its descriptors had a recognized shape. -/
theorem C4_export_iff_nonempty (st : AppState) (d : SceneData) (objs : List ObjDesc)
    (hai : st.aiInitialized = true)
    (hin : ¬(st.promptText = "" ∧ st.uploadedImage = none))
    (hobj : d.objects = some objs) :
    (handleGenerateClick st (GenOutcome.parsed d)).state.exportEnabled = !objs.isEmpty := by
  cases objs <;> simp [handleGenerateClick, hai, hin, buildSceneFromData, hobj]

/-- C4 witness: the all-unrecognized payload enables the export control
when generated from a live state. -/
theorem C4_witness :
    (handleGenerateClick demoState (GenOutcome.parsed pyramidOnlyData)).state.exportEnabled =
      true := by
  have h := C4_export_iff_nonempty demoState pyramidOnlyData [pyramidObj] rfl (by decide) rfl
  simpa using h

/-- C5 counterexample: an accepted description whose `backgroundColor`
is the non-empty invalid style `not-a-color` does not fall back to the
fixed dark default `0x111111`: the string reaches THREE.Color, which
keeps its white default `0xffffff`. -/
theorem C5_counterexample :
    ((buildSceneFromData ⟨0x111111, []⟩ false badColorData).toOption.map
      (fun r => r.graph.background)) = some 0xffffff ∧ (0xffffff : Nat) ≠ 0x111111 := by
  constructor
  · simp [buildSceneFromData, badColorData, sceneBackgroundColor, threeColorOfStyle,
      parseHexColor, Except.toOption]
  · decide

/-- C5 (amended): when a Scene Description is accepted, the background
is set from `backgroundColor` whenever it parses as a color, and falls
back to the fixed dark default `0x111111` when `backgroundColor` is
missing or empty; a non-empty unparseable value is instead handed to
the renderer color parser unchanged and yields that parser default
rather than the dark fallback. -/
theorem C5_background_fallback (g : SceneGraph) (e : Bool) (objs : List ObjDesc)
    (s : String) (n : Nat) (hs : parseHexColor s = some n) :
    ((buildSceneFromData g e { backgroundColor := none, objects := some objs }).toOption.map
      (fun r => r.graph.background)) = some 0x111111 ∧
    ((buildSceneFromData g e { backgroundColor := some "", objects := some objs }).toOption.map
      (fun r => r.graph.background)) = some 0x111111 ∧
    ((buildSceneFromData g e { backgroundColor := some s, objects := some objs }).toOption.map
      (fun r => r.graph.background)) = some n := by
  have hne : s ≠ "" := by
    intro he
    rw [he] at hs
    rw [show parseHexColor "" = none from rfl] at hs
    cases hs
  refine ⟨?_, ?_, ?_⟩ <;>
    simp [buildSceneFromData, sceneBackgroundColor, threeColorOfStyle, hne, hs, Except.toOption]

/-- C5 witness: a parseable hex background is applied verbatim. -/
theorem C5_witness :
    ((buildSceneFromData ⟨0x111111, []⟩ false
        { backgroundColor := some "#123456", objects := some [] }).toOption.map
      (fun r => r.graph.background)) = some 0x123456 :=
  (C5_background_fallback ⟨0x111111, []⟩ false [] "#123456" 0x123456 (by decide)).2.2

theorem mixedData_build :
    buildSceneFromData ⟨0x111111, []⟩ false mixedData = Except.ok mixedResult := by
  simp [buildSceneFromData, mixedData, mixedObjs, pyramidObj, buildMesh, shapeGeometry,
    sceneBackgroundColor, threeColorOfStyle, parseHexColor, hexValue, hexDigitVal, mixedResult]
  norm_num

/-- C1 counterexample: from a state holding one mesh and background
`0x222222`, a response payload that parses but lacks `objects` yields
the Failed transition (the generic error is surfaced), yet the Scene
Graph is not its pre-request state: the content has been cleared and
the background reset from the payload. -/
theorem C1_counterexample :
    ((handleGenerateClick demoState (GenOutcome.parsed missingObjectsData)).state.errorMsg =
      some generateFailedMsg) ∧
    (handleGenerateClick demoState
        (GenOutcome.parsed missingObjectsData)).state.sceneGraph.content = [] ∧
    (handleGenerateClick demoState
        (GenOutcome.parsed missingObjectsData)).state.sceneGraph.background = 0x000000 ∧
    demoState.sceneGraph.content = [demoMesh] ∧
    demoState.sceneGraph.background = 0x222222 ∧
    (handleGenerateClick demoState (GenOutcome.parsed missingObjectsData)).state.sceneGraph ≠
      demoState.sceneGraph := by
  refine ⟨?_, ?_, ?_, rfl, rfl, ?_⟩
  · simp [handleGenerateClick, demoState, buildSceneFromData, missingObjectsData]
  · simp [handleGenerateClick, demoState, buildSceneFromData, missingObjectsData]
  · simp [handleGenerateClick, demoState, buildSceneFromData, missingObjectsData,
      sceneBackgroundColor, threeColorOfStyle, parseHexColor, hexValue, hexDigitVal]
  · intro h
    have hb := congrArg SceneGraph.background h
    simp [handleGenerateClick, demoState, buildSceneFromData, missingObjectsData,
      sceneBackgroundColor, threeColorOfStyle, parseHexColor, hexValue, hexDigitVal] at hb

/-- C1 (amended): a generation whose response fails JSON parsing, or
whose external call fails, transitions to Failed with the Scene Graph
fully unchanged; a generation whose payload parses but lacks the
`objects` field also transitions to Failed, but only after the mesh
content has been cleared and the background reassigned from the
payload, so for such payloads the Scene Graph is not its pre-request
state. -/
theorem C1_failed_generation (st : AppState) (d : SceneData)
    (hai : st.aiInitialized = true)
    (hin : ¬(st.promptText = "" ∧ st.uploadedImage = none))
    (hobj : d.objects = none) :
    ((handleGenerateClick st GenOutcome.parseError).state.sceneGraph = st.sceneGraph ∧
     (handleGenerateClick st GenOutcome.parseError).state.errorMsg = some generateFailedMsg) ∧
    ((handleGenerateClick st GenOutcome.serviceError).state.sceneGraph = st.sceneGraph ∧
     (handleGenerateClick st GenOutcome.serviceError).state.errorMsg = some generateFailedMsg) ∧
    ((handleGenerateClick st (GenOutcome.parsed d)).state.errorMsg = some generateFailedMsg ∧
     (handleGenerateClick st (GenOutcome.parsed d)).state.sceneGraph =
       { background := sceneBackgroundColor d.backgroundColor, content := [] }) := by
  refine ⟨⟨?_, ?_⟩, ⟨?_, ?_⟩, ?_, ?_⟩ <;>
    simp [handleGenerateClick, hai, hin, buildSceneFromData, hobj]

/-- C1 witness: the amended theorem applied to the live demo state and
the payload missing `objects`. -/
theorem C1_witness :
    (handleGenerateClick demoState (GenOutcome.parsed missingObjectsData)).state.sceneGraph =
      { background := sceneBackgroundColor missingObjectsData.backgroundColor, content := [] } :=
  (C1_failed_generation demoState missingObjectsData rfl (by decide) rfl).2.2.2

/-- C6: scene replacement is idempotent — applying `buildSceneFromData`
to its own successful result with the same description yields exactly
the same Scene Graph and export availability. -/
theorem C6_idempotent (g : SceneGraph) (e : Bool) (d : SceneData) (r : BuildResult)
    (h : buildSceneFromData g e d = Except.ok r) :
    buildSceneFromData r.graph r.exportEnabled d = Except.ok r := by
  cases hobj : d.objects with
  | none => rw [buildSceneFromData] at h; simp [hobj] at h
  | some objs =>
    rw [buildSceneFromData] at h
    simp only [hobj, Except.ok.injEq] at h
    subst h
    by_cases hlen : objs.length > 0 <;>
      simp [buildSceneFromData, hobj, hlen]

/-- C6 witness: the mixed payload applied twice from an empty graph. -/
theorem C6_witness :
    buildSceneFromData mixedResult.graph mixedResult.exportEnabled mixedData =
      Except.ok mixedResult :=
  C6_idempotent ⟨0x111111, []⟩ false mixedData mixedResult mixedData_build

/-- C7: a generation attempt with an empty prompt and no uploaded image
is rejected before the external service is contacted, a user-visible
error is shown, and the Scene Graph is untouched. -/
theorem C7_empty_input_rejected (st : AppState) (outcome : GenOutcome)
    (hp : st.promptText = "") (hi : st.uploadedImage = none) :
    (handleGenerateClick st outcome).serviceCalled = false ∧
    (handleGenerateClick st outcome).state.sceneGraph = st.sceneGraph ∧
    (handleGenerateClick st outcome).state.errorMsg.isSome = true := by
  by_cases hai : st.aiInitialized = false <;>
    simp [handleGenerateClick, hai, hp, hi]

/-- C7 witness: the empty-input state never reaches the service. -/
theorem C7_witness :
    (handleGenerateClick emptyInputState GenOutcome.serviceError).serviceCalled = false :=
  (C7_empty_input_rejected emptyInputState GenOutcome.serviceError rfl rfl).1

/-- C9: after every successful replacement, every mesh of the content
group carries the default (0,0,0) rotation (translation only), position
and color taken verbatim from one of the descriptors, and the fixed
material constants roughness 0.5 and metalness 0.1. -/
theorem C9_mesh_invariant (g : SceneGraph) (e : Bool) (d : SceneData)
    (objs : List ObjDesc) (r : BuildResult)
    (hobj : d.objects = some objs) (h : buildSceneFromData g e d = Except.ok r) :
    translationMaterialInvariant objs r.graph.content = true := by
  rw [buildSceneFromData] at h
  simp only [hobj, Except.ok.injEq] at h
  subst h
  rw [translationMaterialInvariant, List.all_eq_true]
  intro m hm
  rw [List.mem_filterMap] at hm
  obtain ⟨o, ho, hbo⟩ := hm
  unfold buildMesh at hbo
  cases hg : shapeGeometry o.shape o.scale with
  | none => rw [hg] at hbo; cases hbo
  | some geo =>
    rw [hg] at hbo
    injection hbo with hmo
    subst hmo
    simp [List.any_eq_true]
    exact ⟨o, ho, rfl, rfl⟩

/-- C9 witness: the invariant evaluated on the mixed payload result. -/
theorem C9_witness :
    translationMaterialInvariant mixedObjs mixedResult.graph.content = true :=
  C9_mesh_invariant ⟨0x111111, []⟩ false mixedData mixedObjs mixedResult rfl mixedData_build

/-- C10: for every generation attempt that reaches the external service
(key present, non-empty input), export availability ends up enabled
exactly when the outcome is a parsed payload whose objects list is
non-empty; in particular every failing attempt (service error, parse
error, or payload missing `objects`) leaves export disabled, even when
meshes from a previous successful generation were live beforehand. -/
theorem C10_export_after_attempt (st : AppState) (outcome : GenOutcome)
    (hai : st.aiInitialized = true)
    (hin : ¬(st.promptText = "" ∧ st.uploadedImage = none)) :
    (handleGenerateClick st outcome).state.exportEnabled =
      successfulNonEmptyOutcome outcome := by
  cases outcome with
  | serviceError => simp [handleGenerateClick, hai, hin, successfulNonEmptyOutcome]
  | parseError => simp [handleGenerateClick, hai, hin, successfulNonEmptyOutcome]
  | parsed d =>
    cases hobj : d.objects with
    | none =>
      simp [handleGenerateClick, hai, hin, successfulNonEmptyOutcome, buildSceneFromData, hobj]
    | some objs =>
      cases objs <;>
        simp [handleGenerateClick, hai, hin, successfulNonEmptyOutcome, buildSceneFromData, hobj]

/-- C10 witness: a failing call from the live demo state (meshes still
present, export previously enabled) leaves export disabled. -/
theorem C10_witness :
    (handleGenerateClick demoState GenOutcome.serviceError).state.exportEnabled = false := by
  have h := C10_export_after_attempt demoState GenOutcome.serviceError rfl (by decide)
  simpa [successfulNonEmptyOutcome] using h

theorem string_data_append (s t : String) : (s ++ t).data = s.data ++ t.data := by
  cases s; cases t; rfl

theorem string_append_assoc (a b c : String) : a ++ b ++ c = a ++ (b ++ c) := by
  cases a with
  | mk la =>
    cases b with
    | mk lb =>
      cases c with
      | mk lc => exact congrArg String.mk (List.append_assoc la lb lc)

theorem splitCommaChars_ne_nil (l : List Char) : splitCommaChars l ≠ [] := by
  cases l with
  | nil => simp [splitCommaChars]
  | cons c rest =>
    rcases h : splitCommaChars rest with _ | ⟨g, gs⟩
    · simp [splitCommaChars, h]
    · by_cases hc : c = ',' <;> simp [splitCommaChars, h, hc]

theorem splitCommaChars_no_comma (l : List Char) (h : ',' ∉ l) : splitCommaChars l = [l] := by
  induction l with
  | nil => rfl
  | cons c rest ih =>
    have hc : ¬ c = ',' := by intro e; exact h (by simp [e])
    have hr : ',' ∉ rest := fun m => h (List.mem_cons_of_mem c m)
    simp [splitCommaChars, ih hr, hc]

theorem splitCommaChars_append (l1 l2 : List Char) (h : ',' ∉ l1) :
    splitCommaChars (l1 ++ ',' :: l2) = l1 :: splitCommaChars l2 := by
  induction l1 with
  | nil =>
    rcases hs : splitCommaChars l2 with _ | ⟨g, gs⟩
    · exact absurd hs (splitCommaChars_ne_nil l2)
    · simp [splitCommaChars, hs]
  | cons c rest ih =>
    have hc : ¬ c = ',' := by intro e; exact h (by simp [e])
    have hr : ',' ∉ rest := fun m => h (List.mem_cons_of_mem c m)
    simp [splitCommaChars, ih hr, hc]

theorem jsSplitComma_eq (s t : String) (hs : ',' ∉ s.data) (ht : ',' ∉ t.data) :
    jsSplitComma (s ++ "," ++ t) = [s, t] := by
  have hdata : (s ++ "," ++ t).data = s.data ++ ',' :: t.data := by
    rw [string_data_append, string_data_append, show (",").data = [','] from rfl,
      List.append_assoc]
    rfl
  rw [jsSplitComma, hdata, splitCommaChars_append _ _ hs, splitCommaChars_no_comma _ ht]
  rfl

theorem handleImageUpload_accepted (st : AppState) (f : JsFile) (mime : String)
    (hty : f.type = mime)
    (hm : f.type ∈ acceptedImageTypes)
    (hhead : ',' ∉ ("data:" ++ mime ++ ";base64").data)
    (hb : ',' ∉ f.base64.data) :
    handleImageUpload st (some f) =
      { st with uploadedImage := some { mimeType := f.type, data := f.base64 } } := by
  have hurl : dataUrlOf f = ("data:" ++ mime ++ ";base64") ++ "," ++ f.base64 := by
    rw [dataUrlOf, hty, show (";base64," : String) = ";base64" ++ "," from rfl,
      ← string_append_assoc ("data:" ++ mime) ";base64" ","]
  simp [handleImageUpload, hm, hurl, jsSplitComma_eq _ _ hhead hb]

/-- C8: a file offered as image input is accepted, and stored as a
base64 payload paired with its MIME type, exactly when its MIME type is
one of image/jpeg, image/png, image/webp; any other MIME type is
rejected with the user-visible error and leaves the stored uploaded
image unchanged.  The hypothesis records that base64 text never
contains a comma, which the data-URL split relies on. -/
theorem C8_image_upload (st : AppState) (f : JsFile) (hb : ',' ∉ f.base64.data) :
    (acceptedImageTypes.contains f.type = true →
      handleImageUpload st (some f) =
        { st with uploadedImage := some { mimeType := f.type, data := f.base64 } }) ∧
    (acceptedImageTypes.contains f.type = false →
      (handleImageUpload st (some f)).uploadedImage = st.uploadedImage ∧
      (handleImageUpload st (some f)).errorMsg = some invalidImageMsg) := by
  constructor
  · intro hmem
    have hm : f.type ∈ acceptedImageTypes := by
      have := hmem
      rw [List.contains] at this
      exact List.mem_of_elem_eq_true this
    rw [acceptedImageTypes] at hm
    simp only [List.mem_cons, List.mem_singleton, List.not_mem_nil, or_false] at hm
    rcases hm with h | h | h <;>
      exact handleImageUpload_accepted st f _ h
        (by rw [acceptedImageTypes, h]; decide) (by decide) hb
  · intro hmem
    have hnot : f.type ∉ acceptedImageTypes := by
      intro hm
      have he := List.elem_eq_true_of_mem hm
      rw [List.contains, he] at hmem
      cases hmem
    constructor <;> simp [handleImageUpload, hnot]

/-- C8 witness: a PNG file is stored with its MIME type and payload. -/
theorem C8_witness :
    handleImageUpload emptyInputState (some { type := "image/png", base64 := "QUJD" }) =
      { emptyInputState with
          uploadedImage := some { mimeType := "image/png", data := "QUJD" } } :=
  (C8_image_upload emptyInputState { type := "image/png", base64 := "QUJD" }
    (by decide)).1 (by decide)
